import Mathlib

/-!
Shallow embedding of the acquisitions-api authentication core:
credential service (`createUser`, `authenticateUser` from
src/services/auth.services.js), the JWT wrapper (src/utils/jwt.js),
the cookie helper (src/utils/cookies.js) and the authorization
sections of the users controller (src/controllers/users.controller.js).
Machine-independent collaborators (bcrypt, the jsonwebtoken library,
the drizzle-backed user table) are modelled as explicit pure functions
and the database as a list of rows.
-/

namespace Acq

/-- A row of the `users` table: id, name, email, stored password hash,
role, creation timestamp. -/
structure User where
  id : Nat
  name : String
  email : String
  password : String
  role : String
  created_at : Nat
  deriving DecidableEq, Repr

/-- The safe identity view returned to callers (`returning` clauses select
id, name, email, role, created_at — never the password hash). -/
structure Identity where
  id : Nat
  name : String
  email : String
  role : String
  created_at : Nat
  deriving DecidableEq, Repr

/-- Model of `bcrypt.hash(password, 10)`: a deterministic one-way encoding.
The model only needs `comparePassword p (hashPassword p) = true` and that
hashes of distinct inputs differ. -/
def hashPassword (password : String) : String :=
  "bcrypt10$" ++ password

/-- Model of `bcrypt.compare(password, hashedPassword)`: true exactly when
the stored hash is the hash of the supplied password. -/
def comparePassword (password hashedPassword : String) : Bool :=
  hashedPassword == hashPassword password

/-- Model of `db.select().from(users).where(eq(users.email, email)).limit(1)`:
the first row whose email matches, if any. -/
def findByEmail (db : List User) (email : String) : Option User :=
  db.find? (fun u => u.email == email)

/-- The try-block of `authenticateUser` in src/services/auth.services.js:
look up by email, throw `User not found` if absent, compare the password,
throw `Invalid password` on mismatch, otherwise return the safe identity
fields (id, name, email, role, created_at — the hash is not selected). -/
def authenticateUserTry (db : List User) (email password : String) :
    Except String Identity :=
  match findByEmail db email with
  | none => .error "User not found"
  | some existingUser =>
    if comparePassword password existingUser.password then
      .ok { id := existingUser.id, name := existingUser.name,
            email := existingUser.email, role := existingUser.role,
            created_at := existingUser.created_at }
    else
      .error "Invalid password"

/-- `authenticateUser` as exported: the surrounding catch block logs and
rethrows every failure as the single generic `Error authenticating user`. -/
def authenticateUser (db : List User) (email password : String) :
    Except String Identity :=
  match authenticateUserTry db email password with
  | .ok identity => .ok identity
  | .error _ => .error "Error authenticating user"

/-- The try-block of `createUser`: select existing rows with the same email
(limit 1); if any, throw `User already exists`; otherwise hash the password,
insert the row and return the safe identity fields. The inserted row id
models the database-generated serial id. -/
def createUserTry (db : List User) (name email password role : String)
    (now : Nat) : Except String (Identity × List User) :=
  let existingUser := (db.filter (fun u => u.email == email)).take 1
  if existingUser.length > 0 then
    .error "User already exists"
  else
    let hashedPassword := hashPassword password
    let newRow : User :=
      { id := db.length + 1, name := name, email := email,
        password := hashedPassword, role := role, created_at := now }
    .ok ({ id := newRow.id, name := name, email := email, role := role,
           created_at := now }, db ++ [newRow])

/-- `createUser` as exported: the catch block rethrows every failure as the
single generic `Error creating user`. -/
def createUser (db : List User) (name email password role : String)
    (now : Nat) : Except String (Identity × List User) :=
  match createUserTry db name email password role now with
  | .ok result => .ok result
  | .error _ => .error "Error creating user"

/-- A one-user database for concrete evaluations: the record registered for
`a@x.com` with secret `pw`. -/
def sampleDb : List User :=
  [{ id := 1, name := "Alice", email := "a@x.com",
     password := hashPassword "pw", role := "user", created_at := 0 }]

/-- The claim set a token carries: at least the identity id and role. -/
structure Claims where
  sub : Nat
  role : String
  deriving DecidableEq, Repr

/-- A decoded JWT: payload claims, issued-at, expiry, and the signature
over the header-and-payload contents. Time is in abstract units. -/
structure Token where
  payload : Claims
  iat : Nat
  tokenExp : Nat
  sig : String
  deriving DecidableEq, Repr

/-- Model of the HMAC signature the jsonwebtoken library computes: a
deterministic function of the signing secret and the signed contents. -/
def mkSig (secret : String) (payload : Claims) (iat tokenExp : Nat) : String :=
  secret ++ "#" ++ toString payload.sub ++ "#" ++ payload.role ++ "#" ++
    toString iat ++ "#" ++ toString tokenExp

/-- The ways jsonwebtoken verification fails: wrong signature, malformed
token structure, or expiry. -/
inductive VerifyFailure where
  | badSignature
  | malformed
  | expired
  deriving DecidableEq, Repr

/-- Model of `jwt.sign(payload, secret, { expiresIn: ttl })` evaluated at
time `now`: embeds issued-at `now` and expiry `now + ttl`, and signs. -/
def jwtSignLib (payload : Claims) (secret : String) (ttl now : Nat) : Token :=
  { payload := payload, iat := now, tokenExp := now + ttl,
    sig := mkSig secret payload now (now + ttl) }

/-- Model of `jwt.verify(wire, secret)` evaluated at time `now`. A wire
token is `none` when structurally malformed (not a parseable JWT). The
library rejects a wrong signature, then treats `now >= exp` as expired
(exactly-at-expiry is expired), and otherwise yields the payload claims. -/
def jwtVerifyLib (wire : Option Token) (secret : String) (now : Nat) :
    Except VerifyFailure Claims :=
  match wire with
  | none => .error .malformed
  | some t =>
    if t.sig ≠ mkSig secret t.payload t.iat t.tokenExp then
      .error .badSignature
    else if t.tokenExp ≤ now then
      .error .expired
    else
      .ok t.payload

/-- One internal log line: the fixed message plus the specific cause that
`logger.error('Failed to verify token', error)` records. -/
structure LogLine where
  msg : String
  cause : VerifyFailure
  deriving DecidableEq, Repr

/-- `jwtToken.sign` from src/utils/jwt.js: delegates to the library with
the process-wide secret and configured expiry, both passed explicitly
here as the process-wide configuration values. -/
def jwtToken.sign (secret : String) (ttl : Nat) (payload : Claims)
    (now : Nat) : Token :=
  jwtSignLib payload secret ttl now

/-- `jwtToken.verify` from src/utils/jwt.js: delegates to the library;
the catch block logs the specific failure internally and rethrows the
single uniform `Failed to verify token`. Returns the client-facing
result paired with the internal log. -/
def jwtToken.verify (secret : String) (wire : Option Token) (now : Nat) :
    Except String Claims × List LogLine :=
  match jwtVerifyLib wire secret now with
  | .ok claims => (.ok claims, [])
  | .error cause => (.error "Failed to verify token",
      [{ msg := "Failed to verify token", cause := cause }])

/-- The cookie attribute record built by `cookies.getOptions` in
src/utils/cookies.js. -/
structure CookieOptions where
  httpOnly : Bool
  secure : Bool
  sameSite : String
  maxAge : Nat
  deriving DecidableEq, Repr

/-- `cookies.getOptions`: httpOnly true, secure exactly when
`process.env.NODE_ENV === 'production'`, sameSite strict, maxAge
fifteen minutes in milliseconds. `nodeEnv` is the process-wide
environment value. -/
def cookies.getOptions (nodeEnv : String) : CookieOptions :=
  { httpOnly := true,
    secure := nodeEnv == "production",
    sameSite := "strict",
    maxAge := 1000 * 60 * 15 }

/-- A JavaScript object value appearing in a cookie options object. -/
inductive CVal where
  | b (b : Bool)
  | s (s : String)
  | n (n : Nat)
  deriving DecidableEq, Repr

/-- Property lookup on a JavaScript object modelled as a key-value list. -/
def objLookup (o : List (String × CVal)) (k : String) : Option CVal :=
  (o.find? (fun p => p.1 == k)).map (fun p => p.2)

/-- The spread merge `{ ...o, ...fixed }`: a key present in `fixed` takes
its value from `fixed`, any other key keeps its value from `o`. -/
def spreadMerge (o fixed : List (String × CVal)) (k : String) : Option CVal :=
  match objLookup fixed k with
  | some v => some v
  | none => objLookup o k

/-- `cookies.getOptions()` as the JavaScript object spread into the
options of `res.cookie` / `res.clearCookie`. -/
def cookieOptionsObj (nodeEnv : String) : List (String × CVal) :=
  [("httpOnly", .b (cookies.getOptions nodeEnv).httpOnly),
   ("secure", .b (cookies.getOptions nodeEnv).secure),
   ("sameSite", .s (cookies.getOptions nodeEnv).sameSite),
   ("maxAge", .n (cookies.getOptions nodeEnv).maxAge)]

/-- The options object `cookies.set` actually passes to `res.cookie`:
`{ ...options, ...cookies.getOptions() }`, as a lookup function. -/
def cookies.setApplied (nodeEnv : String) (options : List (String × CVal))
    (k : String) : Option CVal :=
  spreadMerge options (cookieOptionsObj nodeEnv) k

/-- The options object `cookies.clear` actually passes to
`res.clearCookie`: the same spread `{ ...options, ...cookies.getOptions() }`. -/
def cookies.clearApplied (nodeEnv : String) (options : List (String × CVal))
    (k : String) : Option CVal :=
  spreadMerge options (cookieOptionsObj nodeEnv) k

/-- The authenticated requester attached as `req.user` by the auth
middleware: the fields the controller checks. -/
structure AuthUser where
  id : Nat
  role : String
  deriving DecidableEq, Repr

/-- The validated update payload (`updateUserSchema.safeParse` data):
optional profile fields plus an optional role field. -/
structure Updates where
  name : Option String
  email : Option String
  password : Option String
  role : Option String
  deriving DecidableEq, Repr

/-- JavaScript truthiness of `updates.role`: an absent property and the
empty string are falsy, any other string is truthy. -/
def roleTruthy : Option String → Bool
  | none => false
  | some s => s ≠ ""

/-- `delete updates.role`. -/
def stripRole (updates : Updates) : Updates :=
  { updates with role := none }

/-- Outcome of a controller's validation-and-authorization section: a
terminal HTTP response (status, error, message — "" when the JSON body
has no message field), or control reaching the service call. -/
inductive HResult where
  | resp (status : Nat) (error : String) (message : String)
  | proceedUpdate (id : Nat) (updates : Updates)
  | proceedDelete (id : Nat)
  deriving DecidableEq, Repr

/-- The authorization section of `updateUserById`
(src/controllers/users.controller.js), after both schema validations
succeed with a parsed `id` and `updates`: 401 when `req.user` is absent;
403 `You can only update your own information` when a non-admin targets
another id; 403 `Only administrators can change user roles` when a
non-admin's payload carries a truthy role; otherwise the role field is
deleted for non-admins and control reaches `updateUser(id, updates)`. -/
def updateUserById (user : Option AuthUser) (id : Nat) (updates : Updates) :
    HResult :=
  match user with
  | none => .resp 401 "Authentication required"
      "You must be logged in to update user information"
  | some reqUser =>
    if reqUser.role ≠ "admin" ∧ reqUser.id ≠ id then
      .resp 403 "Access denied" "You can only update your own information"
    else if roleTruthy updates.role ∧ reqUser.role ≠ "admin" then
      .resp 403 "Access denied" "Only administrators can change user roles"
    else if reqUser.role ≠ "admin" then
      .proceedUpdate id (stripRole updates)
    else
      .proceedUpdate id updates

/-- The authorization section of `deleteUserById`, after the id validation
succeeds: 401 when `req.user` is absent; 403 `Access denied` for
non-admins; 403 `Operation denied` when an admin targets their own id;
otherwise control reaches `deleteUser(id)`. -/
def deleteUserById (user : Option AuthUser) (id : Nat) : HResult :=
  match user with
  | none => .resp 401 "Authentication required"
      "You must be logged in to delete users"
  | some reqUser =>
    if reqUser.role ≠ "admin" then
      .resp 403 "Access denied" "Only administrators can delete users"
    else if reqUser.id = id then
      .resp 403 "Operation denied" "You cannot delete your own account"
    else
      .proceedDelete id

/-- Outcome of the `fetchUserById` handler: an HTTP response, or the
handler returning without sending any response. -/
inductive FetchOutcome where
  | resp (status : Nat) (body : String)
  | noResponse
  deriving DecidableEq, Repr

/-- The `fetchUserById` handler after its id validation succeeds, given
the outcome of `getUserById(id)` (the service either yields the user or
throws an error message). Success responds 200; in the catch block only
the message `User not found` produces a response (404) — any other error
is logged and the handler returns without responding. -/
def fetchUserById (lookup : Except String Identity) : FetchOutcome :=
  match lookup with
  | .ok _ => .resp 200 "User retrieved successfully"
  | .error e =>
    if e = "User not found" then
      .resp 404 "User not found"
    else
      .noResponse

/-- C1: the try-block of `authenticateUser` does distinguish a missing
record (`User not found`) from a failed comparison (`Invalid password`)
and the success path returns the identity without the stored hash, but
the catch-all rethrows both failures as the single generic
`Error authenticating user`, so the two failure kinds are NOT
distinguishable by the caller: evaluated on a concrete database, an
unknown identifier and a wrong secret produce identical errors. -/
theorem c1_failure_collapse :
    authenticateUser sampleDb "missing@x.com" "pw" =
      .error "Error authenticating user" ∧
    authenticateUser sampleDb "a@x.com" "wrong" =
      .error "Error authenticating user" ∧
    authenticateUserTry sampleDb "missing@x.com" "pw" =
      .error "User not found" ∧
    authenticateUserTry sampleDb "a@x.com" "wrong" =
      .error "Invalid password" ∧
    authenticateUser sampleDb "a@x.com" "pw" =
      .ok { id := 1, name := "Alice", email := "a@x.com", role := "user",
            created_at := 0 } :=
  ⟨rfl, rfl, rfl, rfl, rfl⟩

/-- C5: `createUser` checks for an existing record before insert and on
the fresh path hashes the secret, persists the row and returns the new
identity; but the catch-all rethrows the `User already exists` failure
as the generic `Error creating user`, so the AlreadyExists kind is NOT
distinguishable by the caller and cannot be mapped to 409. -/
theorem c5_already_exists_collapse :
    createUser sampleDb "Bob" "a@x.com" "pw2" "user" 5 =
      .error "Error creating user" ∧
    createUserTry sampleDb "Bob" "a@x.com" "pw2" "user" 5 =
      .error "User already exists" ∧
    createUser sampleDb "Bob" "b@x.com" "pw2" "user" 5 =
      .ok ({ id := 2, name := "Bob", email := "b@x.com", role := "user",
             created_at := 5 },
           sampleDb ++
             [{ id := 2, name := "Bob", email := "b@x.com",
                password := hashPassword "pw2", role := "user",
                created_at := 5 }]) :=
  ⟨rfl, rfl, rfl⟩

/-- C3: a requester with role admin targeting their own id is rejected
with 403 `Operation denied` / `You cannot delete your own account`, and
control never reaches `deleteUser`, even though the admin role check
alone would permit the deletion. -/
theorem c3_admin_cannot_delete_self (u : AuthUser) (id : Nat)
    (hrole : u.role = "admin") (hself : u.id = id) :
    deleteUserById (some u) id =
      .resp 403 "Operation denied" "You cannot delete your own account" ∧
    ∀ j, deleteUserById (some u) id ≠ .proceedDelete j := by
  simp [deleteUserById, hrole, hself]

/-- Witness for C3 at a concrete admin deleting their own id. -/
theorem c3_admin_cannot_delete_self_witness :
    deleteUserById (some { id := 7, role := "admin" }) 7 =
      .resp 403 "Operation denied" "You cannot delete your own account" :=
  (c3_admin_cannot_delete_self { id := 7, role := "admin" } 7 rfl rfl).1

/-- C7: for a non-admin requester, targeting a different id is rejected
with the 403 ownership response, while targeting their own id never
produces the ownership rejection; when additionally no truthy role is in
the payload, the request proceeds to `updateUser` with role stripped. -/
theorem c7_ownership_check (u : AuthUser) (id : Nat) (updates : Updates)
    (hrole : u.role ≠ "admin") :
    (u.id ≠ id →
      updateUserById (some u) id updates =
        .resp 403 "Access denied" "You can only update your own information") ∧
    (u.id = id →
      updateUserById (some u) id updates ≠
        .resp 403 "Access denied" "You can only update your own information") ∧
    (u.id = id → roleTruthy updates.role = false →
      updateUserById (some u) id updates = .proceedUpdate id (stripRole updates)) := by
  refine ⟨?_, ?_, ?_⟩
  · intro hne
    simp [updateUserById, hrole, hne]
  · intro heq
    cases h : roleTruthy updates.role <;>
      simp [updateUserById, hrole, heq, h]
  · intro heq hfalse
    simp [updateUserById, hrole, heq, hfalse]

/-- Witness for C7 at a concrete non-admin user updating their own id. -/
theorem c7_ownership_check_witness :
    updateUserById (some { id := 3, role := "user" }) 3
        { name := some "N", email := none, password := none, role := none } =
      .proceedUpdate 3
        (stripRole { name := some "N", email := none, password := none,
                     role := none }) :=
  (c7_ownership_check { id := 3, role := "user" } 3
      { name := some "N", email := none, password := none, role := none }
      (by decide)).2.2 rfl rfl

/-- C2 counterexample: a non-admin user updating their own id with a role
field in the payload does NOT get the role stripped with the update
proceeding — the request is rejected whole with 403
`Only administrators can change user roles`. -/
theorem c2_counterexample :
    updateUserById (some { id := 2, role := "user" }) 2
        { name := some "N", email := none, password := none,
          role := some "admin" } ≠
      .proceedUpdate 2
        (stripRole { name := some "N", email := none, password := none,
                     role := some "admin" }) ∧
    updateUserById (some { id := 2, role := "user" }) 2
        { name := some "N", email := none, password := none,
          role := some "admin" } =
      .resp 403 "Access denied" "Only administrators can change user roles" := by
  refine ⟨?_, rfl⟩
  decide

/-- C2 amended: for every non-admin requester targeting their own id
whose payload carries a truthy role field, the whole request is rejected
with 403 `Only administrators can change user roles`; the role-stripping
line runs only for payloads whose role field is absent or falsy. -/
theorem c2_amended_role_update_rejected (u : AuthUser) (id : Nat)
    (updates : Updates) (hrole : u.role ≠ "admin") (hself : u.id = id)
    (htruthy : roleTruthy updates.role = true) :
    updateUserById (some u) id updates =
      .resp 403 "Access denied" "Only administrators can change user roles" := by
  simp [updateUserById, hrole, hself, htruthy]

/-- Witness for the amended C2 at a concrete non-admin self-update
carrying a role field. -/
theorem c2_amended_role_update_rejected_witness :
    updateUserById (some { id := 2, role := "user" }) 2
        { name := none, email := none, password := none,
          role := some "user" } =
      .resp 403 "Access denied" "Only administrators can change user roles" :=
  c2_amended_role_update_rejected { id := 2, role := "user" } 2
    { name := none, email := none, password := none, role := some "user" }
    (by decide) rfl (by decide)

/-- C4: whenever library verification fails — wrong signature, malformed
structure, or expiry — the wrapper returns the single uniform client
error `Failed to verify token`, identical for all three causes, while
the internal log records the specific cause. -/
theorem c4_uniform_verify_error (secret : String) (wire : Option Token)
    (now : Nat) (cause : VerifyFailure)
    (h : jwtVerifyLib wire secret now = .error cause) :
    (jwtToken.verify secret wire now).1 = .error "Failed to verify token" ∧
    (jwtToken.verify secret wire now).2 =
      [{ msg := "Failed to verify token", cause := cause }] := by
  simp [jwtToken.verify, h]

/-- Witness for C4 at a concrete malformed token. -/
theorem c4_uniform_verify_error_witness :
    (jwtToken.verify "jwt_secret" none 0).1 =
      .error "Failed to verify token" ∧
    (jwtToken.verify "jwt_secret" none 0).2 =
      [{ msg := "Failed to verify token", cause := .malformed }] :=
  c4_uniform_verify_error "jwt_secret" none 0 .malformed rfl

/-- C6: verifying a token signed at `t0` with time-to-live `ttl` yields
the original claims exactly when evaluated strictly before `t0 + ttl`;
at or after that instant the wrapper fails with the uniform
`Failed to verify token` (exactly-at-expiry is expired). -/
theorem c6_sign_verify_roundtrip (claims : Claims) (secret : String)
    (ttl t0 t : Nat) :
    ((jwtToken.verify secret
        (some (jwtToken.sign secret ttl claims t0)) t).1 = .ok claims ↔
      t < t0 + ttl) ∧
    (t0 + ttl ≤ t →
      (jwtToken.verify secret
          (some (jwtToken.sign secret ttl claims t0)) t).1 =
        .error "Failed to verify token") := by
  by_cases hle : t0 + ttl ≤ t
  · constructor
    · simp [jwtToken.verify, jwtToken.sign, jwtSignLib, jwtVerifyLib, hle]
    · intro _
      simp [jwtToken.verify, jwtToken.sign, jwtSignLib, jwtVerifyLib, hle]
  · constructor
    · simp [jwtToken.verify, jwtToken.sign, jwtSignLib, jwtVerifyLib, hle]
      omega
    · intro h
      omega

/-- Witness for C6: a token with ttl 10 signed at 0 verifies at 5 and is
rejected at exactly 10. -/
theorem c6_sign_verify_roundtrip_witness :
    (jwtToken.verify "jwt_secret"
        (some (jwtToken.sign "jwt_secret" 10 { sub := 1, role := "user" } 0))
        5).1 = .ok { sub := 1, role := "user" } ∧
    (jwtToken.verify "jwt_secret"
        (some (jwtToken.sign "jwt_secret" 10 { sub := 1, role := "user" } 0))
        10).1 = .error "Failed to verify token" :=
  ⟨(c6_sign_verify_roundtrip { sub := 1, role := "user" } "jwt_secret"
      10 0 5).1.mpr (by decide),
   (c6_sign_verify_roundtrip { sub := 1, role := "user" } "jwt_secret"
      10 0 10).2 (by decide)⟩

/-- C8: for every environment the cookie options have http-only true,
same-site strict and the fixed max-age, secure equals exactly whether
the environment is production, and two environments yield options that
differ at most in the secure attribute. -/
theorem c8_cookie_policy (nodeEnv nodeEnv2 : String) :
    (cookies.getOptions nodeEnv).httpOnly = true ∧
    (cookies.getOptions nodeEnv).sameSite = "strict" ∧
    (cookies.getOptions nodeEnv).maxAge = 1000 * 60 * 15 ∧
    (cookies.getOptions nodeEnv).secure = (nodeEnv == "production") ∧
    { cookies.getOptions nodeEnv with
        secure := (cookies.getOptions nodeEnv2).secure } =
      cookies.getOptions nodeEnv2 :=
  ⟨rfl, rfl, rfl, rfl, rfl⟩

/-- C9 counterexample: with a caller-supplied options object carrying a
`path` key, the options actually applied by `cookies.set` differ from
the fixed set returned by `cookies.getOptions` (the extra key passes
through the spread), and they depend on the options argument. -/
theorem c9_counterexample :
    cookies.setApplied "development" [("path", CVal.s "/x")] "path" ≠
      objLookup (cookieOptionsObj "development") "path" ∧
    cookies.setApplied "development" [("path", CVal.s "/x")] "path" ≠
      cookies.setApplied "development" [] "path" := by
  decide

/-- C9 amended: for every options argument to `cookies.set` or
`cookies.clear`, the four policy attributes httpOnly, secure, sameSite
and maxAge of the applied options equal the fixed `cookies.getOptions`
values — any caller-supplied value for them is silently overridden —
while any other caller-supplied key passes through unchanged. -/
theorem c9_amended_policy_override (nodeEnv : String)
    (options : List (String × CVal)) :
    cookies.setApplied nodeEnv options "httpOnly" = some (.b true) ∧
    cookies.setApplied nodeEnv options "secure" =
      some (.b (nodeEnv == "production")) ∧
    cookies.setApplied nodeEnv options "sameSite" = some (.s "strict") ∧
    cookies.setApplied nodeEnv options "maxAge" =
      some (.n (1000 * 60 * 15)) ∧
    cookies.clearApplied nodeEnv options "httpOnly" = some (.b true) ∧
    cookies.clearApplied nodeEnv options "secure" =
      some (.b (nodeEnv == "production")) ∧
    cookies.clearApplied nodeEnv options "sameSite" = some (.s "strict") ∧
    cookies.clearApplied nodeEnv options "maxAge" =
      some (.n (1000 * 60 * 15)) ∧
    (∀ k, k ≠ "httpOnly" → k ≠ "secure" → k ≠ "sameSite" → k ≠ "maxAge" →
      cookies.setApplied nodeEnv options k = objLookup options k) := by
  refine ⟨rfl, rfl, rfl, rfl, rfl, rfl, rfl, rfl, ?_⟩
  intro k h1 h2 h3 h4
  have e1 : ("httpOnly" == k) = false := by
    rw [beq_eq_false_iff_ne]
    exact fun h => h1 h.symm
  have e2 : ("secure" == k) = false := by
    rw [beq_eq_false_iff_ne]
    exact fun h => h2 h.symm
  have e3 : ("sameSite" == k) = false := by
    rw [beq_eq_false_iff_ne]
    exact fun h => h3 h.symm
  have e4 : ("maxAge" == k) = false := by
    rw [beq_eq_false_iff_ne]
    exact fun h => h4 h.symm
  simp [cookies.setApplied, spreadMerge, cookieOptionsObj, objLookup,
    List.find?, e1, e2, e3, e4]

/-- Witness for the amended C9 at a concrete options object carrying
both an overridden key and a pass-through key. -/
theorem c9_amended_policy_override_witness :
    cookies.setApplied "development"
        [("secure", CVal.b true), ("path", CVal.s "/x")] "secure" =
      some (.b ("development" == "production")) ∧
    cookies.setApplied "development"
        [("secure", CVal.b true), ("path", CVal.s "/x")] "path" =
      objLookup [("secure", CVal.b true), ("path", CVal.s "/x")] "path" :=
  ⟨(c9_amended_policy_override "development"
      [("secure", CVal.b true), ("path", CVal.s "/x")]).2.1,
   (c9_amended_policy_override "development"
      [("secure", CVal.b true),
        ("path", CVal.s "/x")]).2.2.2.2.2.2.2.2 "path"
     (by decide) (by decide) (by decide) (by decide)⟩

/-- C10: when `getUserById` fails with any message other than
`User not found`, the `fetchUserById` handler catches the error and
returns without sending any HTTP response. -/
theorem c10_non_notfound_error_unanswered (e : String)
    (h : e ≠ "User not found") :
    fetchUserById (.error e) = .noResponse := by
  simp [fetchUserById, h]

/-- Witness for C10 at a concrete upstream failure message. -/
theorem c10_non_notfound_error_unanswered_witness :
    fetchUserById (.error "Error fetching user") = .noResponse :=
  c10_non_notfound_error_unanswered "Error fetching user" (by decide)

end Acq
